import Mathlib

/-!
Verification of the OCL flexible importer (oclfleximporter.py) against its
natural-language specification.  The Python module is shallowly embedded:
records are association lists of dynamic values, the nested results
dictionary is a dynamic tree, network traffic is an oracle carried in the
context, and Python runtime errors (TypeError and friends) are made explicit
through Except.
-/

namespace Ocl

/-- Dynamic values carried in a parsed JSON-line record (the subset the
importer manipulates: strings, integers and nested objects). -/
inductive PyVal where
  | str (s : String)
  | num (n : Int)
  | dict (fields : List (String × PyVal))

/-- A parsed record: an insertion-ordered mapping from field names to values,
modelling the Python dict the importer mutates field by field. -/
abbrev PyRec := List (String × PyVal)

/-- Python runtime errors that the importer can hit at the dynamic-typing
seams (list indexed by a string, None concatenated with a string, missing
key, unbound local). -/
inductive PyErr where
  | typeError
  | nameError
  | keyError
deriving DecidableEq, Repr

/-- Lookup of a field in a record (Python `obj[k]` / `k in obj`). -/
def recLookup (r : PyRec) (k : String) : Option PyVal :=
  List.lookup k r

/-- Membership test `k in obj`. -/
def recHasKey (r : PyRec) (k : String) : Bool :=
  (List.lookup k r).isSome

/-- Removal of a field, modelling `obj.pop(k)` / `obj.pop(k, None)`. -/
def recErase (r : PyRec) (k : String) : PyRec :=
  r.filter (fun p => !(p.1 == k))

/-- Python truthiness of a value (empty string / zero / empty dict are falsy). -/
def PyVal.truthy : PyVal → Bool
  | PyVal.str s => !(s == "")
  | PyVal.num n => !(n == 0)
  | PyVal.dict d => !d.isEmpty

/-- Truthiness of an optional value; None is falsy. -/
def optTruthy : Option PyVal → Bool
  | some v => v.truthy
  | none => false

/-- Coercion to a string where Python would concatenate; every non-string
raises TypeError. -/
def asStr : PyVal → Except PyErr String
  | PyVal.str s => Except.ok s
  | _ => Except.error PyErr.typeError

/-- Coercion of an optional value used in string concatenation; None + str
raises TypeError in Python. -/
def asStrOpt : Option PyVal → Except PyErr String
  | some v => asStr v
  | none => Except.error PyErr.typeError

/-- Python equality between a dynamic value and a string literal: only a
string with the same contents compares equal, everything else is False. -/
def pyEqStr : PyVal → String → Bool
  | PyVal.str s, t => s == t
  | _, _ => false

/-- Python equality between an optional value and a string literal; None
compares unequal to every string. -/
def optPyEqStr : Option PyVal → String → Bool
  | some v, t => pyEqStr v t
  | none, _ => false

/-- Index of the first occurrence of a character in a character list, as
Python list search does for the single-character needle the importer uses. -/
def charFindIdx (c : Char) : List Char → Option Nat
  | [] => none
  | a :: rest => if a = c then some 0 else (charFindIdx c rest).map (· + 1)

/-- Python `haystack.find(needle, start)` for the one-character needle the
importer passes; returns -1 when the character does not occur at or after
`start`. -/
def strFindFrom (h : String) (c : Char) (start : Nat) : Int :=
  match charFindIdx c (h.data.drop start) with
  | some k => ((start + k : Nat) : Int)
  | none => -1

/-- Loop body of `find_nth`: while start >= 0 and n > 1, advance to the next
occurrence after `start` and decrement n. -/
def find_nthAux (h : String) (c : Char) : Int → Nat → Int
  | start, 0 => start
  | start, 1 => start
  | start, Nat.succ (Nat.succ m) =>
    if 0 ≤ start then find_nthAux h c (strFindFrom h c (start.toNat + 1)) (Nat.succ m)
    else start

/-- OclFlexImporter.find_nth specialised to the one-character needle used at
its only call sites ('/'): the index of the nth occurrence, or -1. -/
def find_nth (h : String) (c : Char) (n : Nat) : Int :=
  find_nthAux h c (strFindFrom h c 0) n

/-- Python slice `s[:k]` for an integer bound (negative bounds count from the
end, as in Python). -/
def pySliceTo (s : String) (k : Int) : String :=
  String.mk (s.data.take (if k < 0 then ((s.data.length : Int) + k).toNat else k.toNat))

/-- Keys of the nested results dictionary: Python uses strings, integer
status codes and None as keys of the same dict. -/
inductive ResKey where
  | kstr (s : String)
  | kint (n : Int)
  | knone
deriving DecidableEq, Repr

/-- Values of the nested results dictionary: a level is either a list of
operation descriptors or a further dict.  The importer's skip-recording
assigns a list where a dict is needed, so both shapes must be represented. -/
inductive ResVal where
  | pylist (xs : List String)
  | pydict (entries : List (ResKey × ResVal))

/-- Lookup in a dict level. -/
def dictLookup : List (ResKey × ResVal) → ResKey → Option ResVal
  | [], _ => none
  | (k, v) :: rest, key => if k = key then some v else dictLookup rest key

/-- Assignment in a dict level: replace in place, or append a new key at the
end, as Python dict assignment does. -/
def dictSet : List (ResKey × ResVal) → ResKey → ResVal → List (ResKey × ResVal)
  | [], key, v => [(key, v)]
  | (k, w) :: rest, key, v =>
    if k = key then (key, v) :: rest else (k, w) :: dictSet rest key v

/-- Python `if key not in container: container[key] = dflt`.  On a dict this
always succeeds; on a list the membership test compares against the string
elements, and the assignment raises (string/None index into a list is a
TypeError, an out-of-range integer index an IndexError; both are modelled as
typeError). -/
def setDefault : ResVal → ResKey → ResVal → Except PyErr ResVal
  | ResVal.pydict d, key, dflt =>
    if (dictLookup d key).isSome then Except.ok (ResVal.pydict d)
    else Except.ok (ResVal.pydict (dictSet d key dflt))
  | ResVal.pylist xs, key, _ =>
    match key with
    | ResKey.kstr s =>
      if xs.contains s then Except.ok (ResVal.pylist xs) else Except.error PyErr.typeError
    | _ => Except.error PyErr.typeError

/-- Python `container[key]` read access. -/
def getItem : ResVal → ResKey → Except PyErr ResVal
  | ResVal.pydict d, key =>
    match dictLookup d key with
    | some v => Except.ok v
    | none => Except.error PyErr.keyError
  | ResVal.pylist _, _ => Except.error PyErr.typeError

/-- Python `container[key] = v` write access. -/
def setItem : ResVal → ResKey → ResVal → Except PyErr ResVal
  | ResVal.pydict d, key, v => Except.ok (ResVal.pydict (dictSet d key v))
  | ResVal.pylist _, _, _ => Except.error PyErr.typeError

/-- Python `container.append(x)`; appending to a dict is an error. -/
def appendStr : ResVal → String → Except PyErr ResVal
  | ResVal.pylist xs, x => Except.ok (ResVal.pylist (xs ++ [x]))
  | ResVal.pydict _, _ => Except.error PyErr.typeError

/-- Conversion of a dynamic value to a dict key (a dict is unhashable). -/
def toKey : Option PyVal → Except PyErr ResKey
  | none => Except.ok ResKey.knone
  | some (PyVal.str s) => Except.ok (ResKey.kstr s)
  | some (PyVal.num n) => Except.ok (ResKey.kint n)
  | some (PyVal.dict _) => Except.error PyErr.typeError

/-- OclImportResults: the nested results dictionary plus the running
counters. -/
structure OclImportResults where
  results : ResVal
  count : Nat
  num_skipped : Nat
  total_lines : Nat

/-- Fresh results object, as built by OclImportResults.__init__. -/
def emptyResults (total_lines : Nat) : OclImportResults :=
  { results := ResVal.pydict [], count := 0, num_skipped := 0, total_lines := total_lines }

/-- First dimension of the results object chosen by OclImportResults.add:
repository address for concepts/mappings/references, owner address for
sources/collections, fixed roots for organizations and users, the empty
string otherwise. -/
def loggingRoot (obj_type : String) (obj_repo_url obj_owner_url : Option PyVal) :
    Except PyErr ResKey :=
  if obj_type == "Concept" || obj_type == "Mapping" || obj_type == "Reference" then
    toKey obj_repo_url
  else if obj_type == "Source" || obj_type == "Collection" then
    toKey obj_owner_url
  else if obj_type == "Organization" then Except.ok (ResKey.kstr "/orgs/")
  else if obj_type == "User" then Except.ok (ResKey.kstr "/users/")
  else Except.ok (ResKey.kstr "")

/-- OclImportResults.add: append one operation descriptor under
root -> action type -> status code, then bump the processed counter. -/
def OclImportResults.add (r : OclImportResults) (obj_url action_type obj_type : String)
    (obj_repo_url : Option PyVal) (http_method : String) (obj_owner_url : Option PyVal)
    (status_code : ResKey) : Except PyErr OclImportResults := do
  let root ← loggingRoot obj_type obj_repo_url obj_owner_url
  let v0 ← setDefault r.results root (ResVal.pydict [])
  let v1 ← getItem v0 root
  let v1a ← setDefault v1 (ResKey.kstr action_type) (ResVal.pydict [])
  let v2 ← getItem v1a (ResKey.kstr action_type)
  let v2a ← setDefault v2 status_code (ResVal.pylist [])
  let v3 ← getItem v2a status_code
  let v3a ← appendStr v3 (http_method ++ " " ++ obj_url)
  let v2b ← setItem v2a status_code v3a
  let v1b ← setItem v1a (ResKey.kstr action_type) v2b
  let v0a ← setItem v0 root v1b
  pure { r with results := v0a, count := r.count + 1 }

/-- OclImportResults.add_skip, transcribed statement by statement: ensure the
SKIPPED root, replace a falsy type with the no-object-type key, and then --
as in the source -- initialise the per-type bucket with a LIST before
string-indexing it, append the raw text, and bump both counters. -/
def OclImportResults.add_skip (r : OclImportResults) (obj_type : PyVal) (text : String) :
    Except PyErr OclImportResults := do
  let v0 ← setDefault r.results (ResKey.kstr "SKIPPED") (ResVal.pydict [])
  let key ← if obj_type.truthy then toKey (some obj_type)
            else pure (ResKey.kstr "NO-OBJECT-TYPE")
  let v1 ← getItem v0 (ResKey.kstr "SKIPPED")
  let v1a ← setDefault v1 key (ResVal.pylist [])
  let v2 ← getItem v1a key
  let v2a ← setDefault v2 (ResKey.kstr "SKIPPED") (ResVal.pylist [])
  let v3 ← getItem v2a (ResKey.kstr "SKIPPED")
  let v3a ← appendStr v3 text
  let v2b ← setItem v2a (ResKey.kstr "SKIPPED") v3a
  let v1b ← setItem v1a key v2b
  let v0a ← setItem v0 (ResKey.kstr "SKIPPED") v1b
  pure { r with results := v0a, count := r.count + 1, num_skipped := r.num_skipped + 1 }

/-- OclImportResults.get_summary for the rootless call the driver and the
spec's summarize() refer to. -/
def OclImportResults.get_summary (r : OclImportResults) : String :=
  "Processed " ++ toString r.count ++ " of " ++ toString r.total_lines ++ " total"

/-- One entry of OclFlexImporter.obj_def: the per-type resolution rules. -/
structure ObjDef where
  id_field : Option String
  url_name : String
  has_owner : Bool
  has_source : Bool
  has_collection : Bool
  omit_resource_name_on_get : Bool
  allowed_fields : List String
  create_method : String
  update_method : Option String

def organizationDef : ObjDef :=
  { id_field := some "id", url_name := "orgs", has_owner := false, has_source := false,
    has_collection := false, omit_resource_name_on_get := false,
    allowed_fields := ["id", "company", "extras", "location", "name", "public_access",
                       "extras", "website"],
    create_method := "POST", update_method := some "POST" }

def sourceDef : ObjDef :=
  { id_field := some "id", url_name := "sources", has_owner := true, has_source := false,
    has_collection := false, omit_resource_name_on_get := false,
    allowed_fields := ["id", "short_code", "name", "full_name", "description", "source_type",
                       "custom_validation_schema", "public_access", "default_locale",
                       "supported_locales", "website", "extras", "external_id"],
    create_method := "POST", update_method := some "POST" }

def collectionDef : ObjDef :=
  { id_field := some "id", url_name := "collections", has_owner := true, has_source := false,
    has_collection := false, omit_resource_name_on_get := false,
    allowed_fields := ["id", "short_code", "name", "full_name", "description",
                       "collection_type", "custom_validation_schema", "public_access",
                       "default_locale", "supported_locales", "website", "extras",
                       "external_id"],
    create_method := "POST", update_method := some "POST" }

def conceptDef : ObjDef :=
  { id_field := some "id", url_name := "concepts", has_owner := true, has_source := true,
    has_collection := false, omit_resource_name_on_get := false,
    allowed_fields := ["id", "external_id", "concept_class", "datatype", "names",
                       "descriptions", "retired", "extras"],
    create_method := "POST", update_method := some "POST" }

def mappingDef : ObjDef :=
  { id_field := some "id", url_name := "mappings", has_owner := true, has_source := true,
    has_collection := false, omit_resource_name_on_get := false,
    allowed_fields := ["id", "map_type", "from_concept_url", "to_source_url",
                       "to_concept_url", "to_concept_code", "to_concept_name", "extras",
                       "external_id"],
    create_method := "POST", update_method := some "POST" }

def referenceDef : ObjDef :=
  { id_field := none, url_name := "references", has_owner := true, has_source := false,
    has_collection := true, omit_resource_name_on_get := false,
    allowed_fields := ["data"],
    create_method := "PUT", update_method := none }

def sourceVersionDef : ObjDef :=
  { id_field := some "id", url_name := "versions", has_owner := true, has_source := true,
    has_collection := false, omit_resource_name_on_get := true,
    allowed_fields := ["id", "external_id", "description", "released"],
    create_method := "POST", update_method := some "POST" }

def collectionVersionDef : ObjDef :=
  { id_field := some "id", url_name := "versions", has_owner := true, has_source := false,
    has_collection := true, omit_resource_name_on_get := true,
    allowed_fields := ["id", "external_id", "description", "released"],
    create_method := "POST", update_method := some "POST" }

/-- The resource type registry OclFlexImporter.obj_def. -/
def obj_def : List (String × ObjDef) :=
  [("Organization", organizationDef), ("Source", sourceDef), ("Collection", collectionDef),
   ("Concept", conceptDef), ("Mapping", mappingDef), ("Reference", referenceDef),
   ("Source Version", sourceVersionDef), ("Collection Version", collectionVersionDef)]

/-- Errors the resolution part of process_object can raise. -/
inductive ResolveErr where
  | invalidOwner
  | invalidRepository
  | invalidObjectDefinition
  | py (e : PyErr)
deriving DecidableEq, Repr

/-- Owner-address resolution of process_object (lines 550-575): explicit
owner_url, else owner plus owner_type through the kind table, else the
truncated source/collection URL, else an invalid-owner error.  The
owner_type branch transcribes the source faithfully, comparing the
still-unset owner URL (None) -- not the owner type -- with the User
constant. -/
def resolveOwner (reg : List (String × ObjDef)) (d : ObjDef) (obj_type : String)
    (obj : PyRec) : Except ResolveErr (Option PyVal × PyRec) :=
  let obj_owner_url : Option PyVal := none
  if !d.has_owner then Except.ok (obj_owner_url, obj)
  else if recHasKey obj "owner_url" then
    Except.ok (recLookup obj "owner_url",
               recErase (recErase (recErase obj "owner_url") "owner") "owner_type")
  else if recHasKey obj "owner" && recHasKey obj "owner_type" then
    match recLookup obj "owner_type", recLookup obj "owner" with
    | some obj_owner_type, some obj_owner =>
      let obj2 := recErase (recErase obj "owner_type") "owner"
      if pyEqStr obj_owner_type "Organization" then
        match List.lookup "Organization" reg with
        | some orgDef =>
          match asStr obj_owner with
          | Except.ok ow =>
            Except.ok (some (PyVal.str ("/" ++ orgDef.url_name ++ "/" ++ ow ++ "/")), obj2)
          | Except.error e => Except.error (ResolveErr.py e)
        | none => Except.error (ResolveErr.py PyErr.keyError)
      else if optPyEqStr obj_owner_url "User" then
        match List.lookup "User" reg with
        | some userDef =>
          match asStr obj_owner with
          | Except.ok ow =>
            Except.ok (some (PyVal.str ("/" ++ userDef.url_name ++ "/" ++ ow ++ "/")), obj2)
          | Except.error e => Except.error (ResolveErr.py e)
        | none => Except.error (ResolveErr.py PyErr.keyError)
      else Except.error ResolveErr.invalidOwner
    | _, _ => Except.error (ResolveErr.py PyErr.keyError)
  else if d.has_source && recHasKey obj "source_url"
          && optTruthy (recLookup obj "source_url") then
    match recLookup obj "source_url" with
    | some v =>
      match asStr v with
      | Except.ok s =>
        Except.ok (some (PyVal.str (pySliceTo s (find_nth s '/' 3 + 1))), obj)
      | Except.error e => Except.error (ResolveErr.py e)
    | none => Except.error (ResolveErr.py PyErr.keyError)
  else if d.has_collection && recHasKey obj "collection_url"
          && optTruthy (recLookup obj "collection_url") then
    match recLookup obj "collection_url" with
    | some v =>
      match asStr v with
      | Except.ok s =>
        Except.ok (some (PyVal.str (pySliceTo s (find_nth s '/' 3 + 1))), obj)
      | Except.error e => Except.error (ResolveErr.py e)
    | none => Except.error (ResolveErr.py PyErr.keyError)
  else Except.error ResolveErr.invalidOwner

/-- Repository-address resolution of process_object (lines 577-596): explicit
source_url/collection_url taken verbatim, else synthesized from the owner
address and the source/collection name, else an invalid-repository error. -/
def resolveRepo (d : ObjDef) (obj_type : String) (ow : Option PyVal) (obj : PyRec) :
    Except ResolveErr (Option PyVal × PyRec) :=
  if d.has_source then
    if recHasKey obj "source_url" then
      Except.ok (recLookup obj "source_url", recErase (recErase obj "source_url") "source")
    else if recHasKey obj "source" then
      match recLookup obj "source" with
      | some v =>
        match asStrOpt ow with
        | Except.ok ows =>
          match asStr v with
          | Except.ok s =>
            Except.ok (some (PyVal.str (ows ++ "sources/" ++ s ++ "/")), recErase obj "source")
          | Except.error e => Except.error (ResolveErr.py e)
        | Except.error e => Except.error (ResolveErr.py e)
      | none => Except.error (ResolveErr.py PyErr.keyError)
    else Except.error ResolveErr.invalidRepository
  else if d.has_collection then
    if recHasKey obj "collection_url" then
      Except.ok (recLookup obj "collection_url",
                 recErase (recErase obj "collection_url") "collection")
    else if recHasKey obj "collection" then
      match recLookup obj "collection" with
      | some v =>
        match asStrOpt ow with
        | Except.ok ows =>
          match asStr v with
          | Except.ok s =>
            Except.ok (some (PyVal.str (ows ++ "collections/" ++ s ++ "/")),
                       recErase obj "collection")
          | Except.error e => Except.error (ResolveErr.py e)
        | Except.error e => Except.error (ResolveErr.py e)
      | none => Except.error (ResolveErr.py PyErr.keyError)
    else Except.error ResolveErr.invalidRepository
  else Except.ok (none, obj)

/-- Object/creation address construction of process_object (lines 598-618):
(new_obj_url, obj_url) by the five type shapes. -/
def buildUrls (d : ObjDef) (obj_id : PyVal) (ow rp : Option PyVal) :
    Except ResolveErr (String × String) :=
  if d.has_source || d.has_collection then
    match asStrOpt rp with
    | Except.error e => Except.error (ResolveErr.py e)
    | Except.ok rs =>
      if d.omit_resource_name_on_get then
        match asStr obj_id with
        | Except.ok ids => Except.ok (rs ++ d.url_name ++ "/", rs ++ ids ++ "/")
        | Except.error e => Except.error (ResolveErr.py e)
      else if obj_id.truthy then
        match asStr obj_id with
        | Except.ok ids =>
          Except.ok (rs ++ d.url_name ++ "/", rs ++ d.url_name ++ "/" ++ ids ++ "/")
        | Except.error e => Except.error (ResolveErr.py e)
      else Except.ok (rs ++ d.url_name ++ "/", rs ++ d.url_name ++ "/")
  else if d.has_owner then
    match asStrOpt ow with
    | Except.error e => Except.error (ResolveErr.py e)
    | Except.ok os =>
      match asStr obj_id with
      | Except.ok ids =>
        Except.ok (os ++ d.url_name ++ "/", os ++ d.url_name ++ "/" ++ ids ++ "/")
      | Except.error e => Except.error (ResolveErr.py e)
  else
    match asStr obj_id with
    | Except.ok ids =>
      Except.ok ("/" ++ d.url_name ++ "/", "/" ++ d.url_name ++ "/" ++ ids ++ "/")
    | Except.error e => Except.error (ResolveErr.py e)

/-- Query-parameter extraction (lines 620-625): only the reference type's
cascade flag. -/
def extractQuery (obj_type : String) (obj : PyRec) : List (String × PyVal) × PyRec :=
  if obj_type == "Reference" && recHasKey obj "__cascade" then
    ((match recLookup obj "__cascade" with
      | some v => [("cascade", v)]
      | none => []), recErase obj "__cascade")
  else ([], obj)

/-- Field partitioning (lines 627-631): remaining keys split into the allowed
payload and the removed fields, preserving record order. -/
def partitionAllowed (d : ObjDef) (obj : PyRec) : PyRec × PyRec :=
  (obj.filter (fun p => d.allowed_fields.contains p.1),
   obj.filter (fun p => !(d.allowed_fields.contains p.1)))

/-- Everything the pure part of process_object computes for a record before
any network traffic. -/
structure Resolved where
  obj_id : PyVal
  ow : Option PyVal
  rp : Option PyVal
  new_obj_url : String
  obj_url : String
  query_params : List (String × PyVal)
  payload : PyRec
  not_allowed : PyRec

/-- Pure prefix of process_object (lines 529-631): id extraction, the
has_source/has_collection configuration check, owner and repository
resolution, address construction, query extraction and field
partitioning. -/
def resolvePhase (reg : List (String × ObjDef)) (d : ObjDef) (obj_type : String)
    (obj : PyRec) : Except ResolveErr Resolved :=
  let obj_id : PyVal :=
    match d.id_field with
    | some f =>
      match recLookup obj f with
      | some v => v
      | none => PyVal.str ""
    | none => PyVal.str ""
  if d.has_source && d.has_collection then Except.error ResolveErr.invalidObjectDefinition
  else
    match resolveOwner reg d obj_type obj with
    | Except.error e => Except.error e
    | Except.ok (ow, obj1) =>
      match resolveRepo d obj_type ow obj1 with
      | Except.error e => Except.error e
      | Except.ok (rp, obj2) =>
        match buildUrls d obj_id ow rp with
        | Except.error e => Except.error e
        | Except.ok (nu, ou) =>
          let q := extractQuery obj_type obj2
          let pa := partitionAllowed d q.2
          Except.ok { obj_id := obj_id, ow := ow, rp := rp, new_obj_url := nu,
                      obj_url := ou, query_params := q.1, payload := pa.1,
                      not_allowed := pa.2 }

/-- Response oracle standing in for the remote registry: status code of a
HEAD existence probe, and status code of a POST/PUT transmission. -/
structure Network where
  head : String → Nat
  send : String → String → Nat

/-- Importer configuration relevant to the modelled behaviour. -/
structure Ctx where
  api_url_root : String
  test_mode : Bool
  do_update_if_exists : Bool
  limit : Nat
  registry : List (String × ObjDef)
  net : Network

/-- One observed network request. -/
inductive ReqEvent where
  | head (url : String)
  | send (httpMethod : String) (url : String) (payload : PyRec)

/-- Error raised by does_object_exist for a status outside found/not-found. -/
inductive ProbeErr where
  | unexpectedStatus (request : String) (code : Nat)
deriving Repr

/-- OclFlexImporter.does_object_exist (lines 427-444): serve true from the
cache, otherwise issue a HEAD; 200 caches and returns true, 404 returns
false without caching, anything else raises.  The third component records
whether a real network request was issued. -/
def does_object_exist (net : Network) (api_url_root : String) (cache : List String)
    (use_cache : Bool) (obj_url : String) :
    Except ProbeErr Bool × List String × Bool :=
  if use_cache && cache.contains obj_url then (Except.ok true, cache, false)
  else
    let code := net.head (api_url_root ++ obj_url)
    if code = 200 then (Except.ok true, obj_url :: cache, true)
    else if code = 404 then (Except.ok false, cache, true)
    else (Except.error (ProbeErr.unexpectedStatus ("GET " ++ api_url_root ++ obj_url) code),
          cache, true)

/-- Wrapper that threads the probe through the request log. -/
def runProbe (ctx : Ctx) (cache : List String) (reqs : List ReqEvent) (url : String) :
    List String × List ReqEvent × Except ProbeErr Bool :=
  match does_object_exist ctx.net ctx.api_url_root cache true url with
  | (res, c1, made) =>
    (c1, if made then reqs ++ [ReqEvent.head (ctx.api_url_root ++ url)] else reqs, res)

/-- Reasons process_object returns without reaching the executor. -/
inductive Abandon where
  | ownerMissing
  | ownerProbeError
  | repoMissing
  | repoProbeError
  | objProbeError
  | existsNoUpdate
deriving DecidableEq, Repr

/-- Result of the probe phase: either a reason to return early, or the
object-existence flag the executor is called with. -/
inductive Decision where
  | proceed (already : Bool)
  | abandon (a : Abandon)
deriving DecidableEq, Repr

/-- Already-exists handling (lines 678-685): an existing object without
update support is skipped unless in test mode. -/
def decideExisting (ctx : Ctx) (cache : List String) (reqs : List ReqEvent)
    (already : Bool) : List String × List ReqEvent × Except PyErr Decision :=
  if already && !ctx.do_update_if_exists then
    if ctx.test_mode then (cache, reqs, Except.ok (Decision.proceed already))
    else (cache, reqs, Except.ok (Decision.abandon Abandon.existsNoUpdate))
  else (cache, reqs, Except.ok (Decision.proceed already))

/-- Object-level existence check (lines 666-677): references and mappings
report not-existing without a probe; an unexpected status abandons the
record. -/
def probeObj (ctx : Ctx) (cache : List String) (reqs : List ReqEvent)
    (obj_type : String) (r : Resolved) :
    List String × List ReqEvent × Except PyErr Decision :=
  if obj_type == "Reference" then decideExisting ctx cache reqs false
  else if obj_type == "Mapping" then decideExisting ctx cache reqs false
  else
    match runProbe ctx cache reqs r.obj_url with
    | (c1, q1, Except.error _) => (c1, q1, Except.ok (Decision.abandon Abandon.objProbeError))
    | (c1, q1, Except.ok b) => decideExisting ctx c1 q1 b

/-- Repository existence check (lines 653-664). -/
def probeRepo (ctx : Ctx) (cache : List String) (reqs : List ReqEvent) (d : ObjDef)
    (obj_type : String) (r : Resolved) :
    List String × List ReqEvent × Except PyErr Decision :=
  if (d.has_source || d.has_collection) && optTruthy r.rp then
    match asStrOpt r.rp with
    | Except.error e => (cache, reqs, Except.error e)
    | Except.ok rps =>
      match runProbe ctx cache reqs rps with
      | (c1, q1, Except.error _) =>
        (c1, q1, Except.ok (Decision.abandon Abandon.repoProbeError))
      | (c1, q1, Except.ok true) => probeObj ctx c1 q1 obj_type r
      | (c1, q1, Except.ok false) =>
        if ctx.test_mode then probeObj ctx c1 q1 obj_type r
        else (c1, q1, Except.ok (Decision.abandon Abandon.repoMissing))
  else probeObj ctx cache reqs obj_type r

/-- Probe phase of process_object (lines 640-685): owner, repository and
object existence checks with their skip rules. -/
def probePhase (ctx : Ctx) (cache : List String) (reqs : List ReqEvent) (d : ObjDef)
    (obj_type : String) (r : Resolved) :
    List String × List ReqEvent × Except PyErr Decision :=
  if d.has_owner && optTruthy r.ow then
    match asStrOpt r.ow with
    | Except.error e => (cache, reqs, Except.error e)
    | Except.ok ows =>
      match runProbe ctx cache reqs ows with
      | (c1, q1, Except.error _) =>
        (c1, q1, Except.ok (Decision.abandon Abandon.ownerProbeError))
      | (c1, q1, Except.ok true) => probeRepo ctx c1 q1 d obj_type r
      | (c1, q1, Except.ok false) =>
        if ctx.test_mode then probeRepo ctx c1 q1 d obj_type r
        else (c1, q1, Except.ok (Decision.abandon Abandon.ownerMissing))
  else probeRepo ctx cache reqs d obj_type r

/-- Errors escaping update_or_create: a transport error raised by
raise_for_status, or a Python runtime error. -/
inductive UoCErr where
  | py (e : PyErr)
  | http (code : Nat)
deriving DecidableEq, Repr

/-- Plain rendering of a value for the query string (quoting is not modelled;
no verified property depends on it). -/
def pyValStr : PyVal → String
  | PyVal.str s => s
  | PyVal.num n => toString n
  | PyVal.dict _ => ""

/-- urllib.urlencode over the query parameters, without percent-quoting. -/
def urlencodeQP (qp : List (String × PyVal)) : String :=
  String.intercalate "&" (qp.map (fun p => p.1 ++ "=" ++ pyValStr p.2))

/-- OclFlexImporter.update_or_create (lines 704-751): choose verb, target and
action type from the existence flag, append query parameters, return silently
in test mode, skip updates unconditionally, otherwise transmit, record
exactly one outcome, and raise for a 4xx/5xx status. -/
def update_or_create (ctx : Ctx) (results : OclImportResults) (reqs : List ReqEvent)
    (d : ObjDef) (obj_type : String) (r : Resolved) (obj_already_exists : Bool) :
    OclImportResults × List ReqEvent × Except UoCErr Unit :=
  let methodOpt : Option String :=
    if obj_already_exists then d.update_method else some d.create_method
  let url0 : String := if obj_already_exists then r.obj_url else r.new_obj_url
  let action_type : String := if obj_already_exists then "update" else "new"
  let url : String :=
    if r.query_params.isEmpty then url0 else url0 ++ "?" ++ urlencodeQP r.query_params
  if ctx.test_mode then (results, reqs, Except.ok ())
  else if obj_already_exists then (results, reqs, Except.ok ())
  else
    match methodOpt with
    | none => (results, reqs, Except.error (UoCErr.py PyErr.nameError))
    | some m =>
      if m == "POST" || m == "PUT" then
        let code := ctx.net.send m (ctx.api_url_root ++ url)
        let reqs2 := reqs ++ [ReqEvent.send m (ctx.api_url_root ++ url) r.payload]
        match results.add r.obj_url action_type obj_type r.rp m r.ow
                (ResKey.kint (Int.ofNat code)) with
        | Except.error e => (results, reqs2, Except.error (UoCErr.py e))
        | Except.ok results2 =>
          if 400 ≤ code && code < 600 then (results2, reqs2, Except.error (UoCErr.http code))
          else (results2, reqs2, Except.ok ())
      else (results, reqs, Except.error (UoCErr.py PyErr.nameError))

/-- Errors escaping process_object (an HTTPError never does: it is caught and
logged). -/
inductive RunErr where
  | resolveErr (e : ResolveErr)
  | pyErr (e : PyErr)
  | keyError
deriving DecidableEq, Repr

/-- How process_object returned: abandoned at a probe/skip, the executor ran
to completion, or the executor raised an HTTPError that was caught and
logged. -/
inductive POOutcome where
  | abandoned (a : Abandon)
  | completed
  | httpErrorLogged (code : Nat)
deriving DecidableEq, Repr

/-- Mutable importer state across records: the positive existence cache, the
observed request log and the results aggregate. -/
structure St where
  cache : List String
  reqs : List ReqEvent
  results : OclImportResults

/-- OclFlexImporter.process_object (lines 529-702). -/
def process_object (ctx : Ctx) (st : St) (obj_type : String) (obj : PyRec) :
    St × Except RunErr POOutcome :=
  match List.lookup obj_type ctx.registry with
  | none => (st, Except.error RunErr.keyError)
  | some d =>
    match resolvePhase ctx.registry d obj_type obj with
    | Except.error e => (st, Except.error (RunErr.resolveErr e))
    | Except.ok r =>
      match probePhase ctx st.cache st.reqs d obj_type r with
      | (c1, q1, Except.error e) =>
        ({ st with cache := c1, reqs := q1 }, Except.error (RunErr.pyErr e))
      | (c1, q1, Except.ok (Decision.abandon a)) =>
        ({ st with cache := c1, reqs := q1 }, Except.ok (POOutcome.abandoned a))
      | (c1, q1, Except.ok (Decision.proceed already)) =>
        match update_or_create ctx st.results q1 d obj_type r already with
        | (res2, q2, Except.ok _) =>
          ({ cache := c1, reqs := q2, results := res2 }, Except.ok POOutcome.completed)
        | (res2, q2, Except.error (UoCErr.http code)) =>
          ({ cache := c1, reqs := q2, results := res2 },
           Except.ok (POOutcome.httpErrorLogged code))
        | (res2, q2, Except.error (UoCErr.py e)) =>
          ({ cache := c1, reqs := q2, results := res2 }, Except.error (RunErr.pyErr e))

/-- Errors that crash the whole run: an exception escaping process_object,
or the skip-recording failure. -/
inductive DriverErr where
  | fromRun (e : RunErr)
  | fromSkip (e : PyErr)
deriving DecidableEq, Repr

/-- Loop body of OclFlexImporter.process (lines 398-424): cap check, type
extraction, dispatch to process_object or add_skip.  The returned Nat is the
number of lines read before returning, also when an exception aborts the
run. -/
def processLoop (ctx : Ctx) (input : List (String × PyRec)) (count : Nat) (st : St) :
    Nat × St × Option DriverErr :=
  match input with
  | [] => (count, st, none)
  | (raw, lineObj) :: rest =>
    if ctx.limit > 0 && ctx.limit ≤ count then (count, st, none)
    else
      let count1 := count + 1
      match recLookup lineObj "type" with
      | some tyv =>
        let obj := recErase lineObj "type"
        match tyv with
        | PyVal.str s =>
          if (ctx.registry.map Prod.fst).contains s then
            match process_object ctx st s obj with
            | (st1, Except.ok _) => processLoop ctx rest count1 st1
            | (st1, Except.error e) => (count1, st1, some (DriverErr.fromRun e))
          else
            match st.results.add_skip tyv raw with
            | Except.ok res1 => processLoop ctx rest count1 { st with results := res1 }
            | Except.error e => (count1, st, some (DriverErr.fromSkip e))
        | _ =>
          match st.results.add_skip tyv raw with
          | Except.ok res1 => processLoop ctx rest count1 { st with results := res1 }
          | Except.error e => (count1, st, some (DriverErr.fromSkip e))
      | none =>
        match st.results.add_skip (PyVal.str "") raw with
        | Except.ok res1 => processLoop ctx rest count1 { st with results := res1 }
        | Except.error e => (count1, st, some (DriverErr.fromSkip e))

/-- OclFlexImporter.process (lines 378-425): count the lines, start from a
fresh aggregate and empty cache, and run the loop.  Per-record logging has
no observable effect on the modelled state and is omitted. -/
def process (ctx : Ctx) (input : List (String × PyRec)) : Nat × St × Option DriverErr :=
  processLoop ctx input 0
    { cache := [], reqs := [], results := emptyResults input.length }

/-- Whether a string terminates in the path separator. -/
def endsWithSlash (s : String) : Bool :=
  s.data.getLast? == some '/'

/-- Whether an optional value can be used as a dict key (dicts cannot). -/
def keyable : Option PyVal → Bool
  | some (PyVal.dict _) => false
  | _ => true

/-- Third level of a well-formed results tree: a list of descriptors. -/
def wf3 : ResVal → Bool
  | ResVal.pylist _ => true
  | ResVal.pydict _ => false

/-- Second level of a well-formed results tree: status code to list. -/
def wf2 : ResVal → Bool
  | ResVal.pydict d => d.all (fun kv => wf3 kv.2)
  | ResVal.pylist _ => false

/-- First level of a well-formed results tree: action type to statuses. -/
def wf1 : ResVal → Bool
  | ResVal.pydict d => d.all (fun kv => wf2 kv.2)
  | ResVal.pylist _ => false

/-- Top level of a well-formed results tree: logging root to action types. -/
def wf0 : ResVal → Bool
  | ResVal.pydict d => d.all (fun kv => wf1 kv.2)
  | ResVal.pylist _ => false

/-- Well-formedness of a results aggregate as OclImportResults.add builds it:
a three-level dict with descriptor lists at the leaves. -/
def resultsWF (r : OclImportResults) : Bool :=
  wf0 r.results

/-- Fresh per-run importer state. -/
def st0 : St :=
  { cache := [], reqs := [], results := emptyResults 0 }

/-- Oracle for the §8 concept scenario: every owner/repository probe finds
its target, the object itself does not exist yet, and creation succeeds. -/
def net5 : Network :=
  { head := fun u => if u == "/orgs/Org1/sources/S1/concepts/C1/" then 404 else 200,
    send := fun _ _ => 201 }

def ctx5 : Ctx :=
  { api_url_root := "", test_mode := false, do_update_if_exists := false, limit := 0,
    registry := obj_def, net := net5 }

/-- The §8 concept record, after the driver has consumed its type tag. -/
def c5rec : PyRec :=
  [("id", PyVal.str "C1"), ("source", PyVal.str "S1"), ("owner", PyVal.str "Org1"),
   ("owner_type", PyVal.str "Organization"), ("concept_class", PyVal.str "X"),
   ("datatype", PyVal.str "None"), ("extras", PyVal.dict [("foo", PyVal.num 1)])]

/-- What resolution of the §8 concept record produces. -/
def c5resolved : Resolved :=
  { obj_id := PyVal.str "C1", ow := some (PyVal.str "/orgs/Org1/"),
    rp := some (PyVal.str "/orgs/Org1/sources/S1/"),
    new_obj_url := "/orgs/Org1/sources/S1/concepts/",
    obj_url := "/orgs/Org1/sources/S1/concepts/C1/", query_params := [],
    payload := [("id", PyVal.str "C1"), ("concept_class", PyVal.str "X"),
                ("datatype", PyVal.str "None"),
                ("extras", PyVal.dict [("foo", PyVal.num 1)])],
    not_allowed := [] }

/-- Oracle under which no owner exists: every probe answers not-found. -/
def ctx2 : Ctx :=
  { api_url_root := "", test_mode := false, do_update_if_exists := false, limit := 0,
    registry := obj_def, net := { head := fun _ => 404, send := fun _ _ => 201 } }

/-- A source record whose owner the registry does not know. -/
def c2rec : PyRec :=
  [("id", PyVal.str "S1"), ("owner", PyVal.str "Org1"),
   ("owner_type", PyVal.str "Organization")]

/-- The same record as one raw input line, type tag included. -/
def c2line : PyRec :=
  ("type", PyVal.str "Source") :: c2rec

/-- Oracle under which everything already exists, with updates enabled. -/
def ctx3 : Ctx :=
  { api_url_root := "", test_mode := false, do_update_if_exists := true, limit := 0,
    registry := obj_def, net := { head := fun _ => 200, send := fun _ _ => 200 } }

/-- Oracle under which every transmission fails with a server error. -/
def ctx7 : Ctx :=
  { api_url_root := "", test_mode := false, do_update_if_exists := false, limit := 0,
    registry := obj_def,
    net := { head := fun u => if u == "/orgs/Org1/" || u == "/orgs/Org1/sources/S1/"
                              then 200 else 404,
             send := fun _ _ => 500 } }

def c7lineA : PyRec :=
  [("type", PyVal.str "Concept"), ("id", PyVal.str "A"), ("source", PyVal.str "S1"),
   ("owner", PyVal.str "Org1"), ("owner_type", PyVal.str "Organization"),
   ("concept_class", PyVal.str "X"), ("datatype", PyVal.str "None")]

def c7lineB : PyRec :=
  [("type", PyVal.str "Concept"), ("id", PyVal.str "B"), ("source", PyVal.str "S1"),
   ("owner", PyVal.str "Org1"), ("owner_type", PyVal.str "Organization"),
   ("concept_class", PyVal.str "X"), ("datatype", PyVal.str "None")]

/-- A registry entry that illegally declares both a source and a collection
requirement. -/
def badDef : ObjDef :=
  { id_field := some "id", url_name := "widgets", has_owner := true, has_source := true,
    has_collection := true, omit_resource_name_on_get := false, allowed_fields := ["id"],
    create_method := "POST", update_method := some "POST" }

def ctx8 : Ctx :=
  { api_url_root := "", test_mode := false, do_update_if_exists := false, limit := 0,
    registry := ("Widget", badDef) :: obj_def,
    net := { head := fun _ => 200, send := fun _ _ => 201 } }

def c8line : PyRec :=
  [("type", PyVal.str "Widget"), ("id", PyVal.str "W1")]

/-- A concept record carrying only a short source_url (two separators), so
the third-separator search fails. -/
def c10rec : PyRec :=
  [("id", PyVal.str "C1"), ("source_url", PyVal.str "/x/"),
   ("concept_class", PyVal.str "X")]

/-- Oracle whose every probe succeeds, for the cache witness. -/
def net6 : Network :=
  { head := fun _ => 200, send := fun _ _ => 200 }

@[simp] theorem exceptBindOk {α β ε : Type} (a : α) (f : α → Except ε β) :
    (Except.ok a : Except ε α) >>= f = f a := rfl

@[simp] theorem exceptBindErr {α β ε : Type} (e : ε) (f : α → Except ε β) :
    (Except.error e : Except ε α) >>= f = Except.error e := rfl

@[simp] theorem exceptPure {α ε : Type} (a : α) :
    (pure a : Except ε α) = Except.ok a := rfl

/-- C1: recording a skip always fails with a TypeError instead of completing.
From any fresh results object, add_skip creates the SKIPPED root, initialises
the per-type bucket with a Python list, and then the string-keyed membership
test passes to a string-keyed list assignment, which raises; neither counter
is incremented and no entry is stored. -/
theorem C1_add_skip_raises (obj_type text : String) (n k t : Nat) :
    OclImportResults.add_skip
      { results := ResVal.pydict [], count := n, num_skipped := k, total_lines := t }
      (PyVal.str obj_type) text
      = Except.error PyErr.typeError := by
  by_cases h : obj_type = ""
  · simp [OclImportResults.add_skip, setDefault, getItem, dictLookup, dictSet, toKey,
          PyVal.truthy, h]
  · simp [OclImportResults.add_skip, setDefault, getItem, dictLookup, dictSet, toKey,
          PyVal.truthy, h]

/-- C4: with an owner name and owner kind present, kind Organization resolves
to the organization path, but kind User raises an invalid-owner error (the
source compares the still-unset owner URL, not the owner kind, with the User
constant), and any other kind also raises. -/
theorem C4_user_owner_kind :
    resolveOwner obj_def sourceDef "Source"
      [("id", PyVal.str "S1"), ("owner", PyVal.str "johndoe"),
       ("owner_type", PyVal.str "User")]
      = Except.error ResolveErr.invalidOwner
    ∧ resolveOwner obj_def sourceDef "Source"
      [("id", PyVal.str "S1"), ("owner", PyVal.str "Org1"),
       ("owner_type", PyVal.str "Organization")]
      = Except.ok (some (PyVal.str "/orgs/Org1/"), [("id", PyVal.str "S1")])
    ∧ resolveOwner obj_def sourceDef "Source"
      [("id", PyVal.str "S1"), ("owner", PyVal.str "x"),
       ("owner_type", PyVal.str "Other")]
      = Except.error ResolveErr.invalidOwner :=
  ⟨rfl, rfl, rfl⟩

/-- C5: the §8 concept scenario.  The record resolves to the four expected
addresses, the payload is reduced to exactly id, concept_class, datatype and
extras, and with the object probe answering not-found the run issues a POST
create at the creation address carrying that payload. -/
theorem C5_concept_scenario :
    resolvePhase obj_def conceptDef "Concept" c5rec = Except.ok c5resolved
    ∧ (process_object ctx5 st0 "Concept" c5rec).1.reqs =
        [ReqEvent.head "/orgs/Org1/", ReqEvent.head "/orgs/Org1/sources/S1/",
         ReqEvent.head "/orgs/Org1/sources/S1/concepts/C1/",
         ReqEvent.send "POST" "/orgs/Org1/sources/S1/concepts/" c5resolved.payload]
    ∧ (process_object ctx5 st0 "Concept" c5rec).2 = Except.ok POOutcome.completed :=
  ⟨rfl, rfl, rfl⟩

/-- C2 counterexample: a source record whose owner probe answers not-found in
a non-test run is abandoned without touching the aggregator: the driver reads
the record, but the aggregate counts zero processed and zero skipped, so the
summarize() total reports 0 of 1. -/
theorem C2_counterexample :
    (process_object ctx2 st0 "Source" c2rec).2
      = Except.ok (POOutcome.abandoned Abandon.ownerMissing)
    ∧ (process_object ctx2 st0 "Source" c2rec).1.results.count = 0
    ∧ (process_object ctx2 st0 "Source" c2rec).1.results.num_skipped = 0
    ∧ (process ctx2 [("raw1", c2line)]).1 = 1
    ∧ (process ctx2 [("raw1", c2line)]).2.2 = none
    ∧ (process ctx2 [("raw1", c2line)]).2.1.results.get_summary
        = "Processed 0 of 1 total" :=
  ⟨rfl, rfl, rfl, rfl, rfl, rfl⟩

/-- C3 counterexample: object exists, updates-if-exists enabled, non-test
run -- yet no update request is transmitted and no outcome is recorded: the
executor logs and returns (the source skips updates unconditionally). -/
theorem C3_counterexample :
    (process_object ctx3 st0 "Concept" c5rec).2 = Except.ok POOutcome.completed
    ∧ (process_object ctx3 st0 "Concept" c5rec).1.results.count = 0
    ∧ (process_object ctx3 st0 "Concept" c5rec).1.reqs =
        [ReqEvent.head "/orgs/Org1/", ReqEvent.head "/orgs/Org1/sources/S1/",
         ReqEvent.head "/orgs/Org1/sources/S1/concepts/C1/"] :=
  ⟨rfl, rfl, rfl⟩

/-- C8 counterexample: with a registry entry declaring both has_source and
has_collection, the run does not fail before any record is read -- the first
record is read (count 1) and only then does processing it raise the
configuration error, which aborts the run. -/
theorem C8_counterexample :
    (process ctx8 [("w1", c8line)]).1 = 1
    ∧ (process ctx8 [("w1", c8line)]).2.2
        = some (DriverErr.fromRun (RunErr.resolveErr ResolveErr.invalidObjectDefinition)) :=
  ⟨rfl, rfl⟩

/-- C10 counterexample: for the short source_url "/x/" the third-separator
search returns -1 and the owner address becomes empty, but the repository
address is the verbatim source_url, not a synthesis from the empty owner
address (such a synthesis would begin with "sources/"). -/
theorem C10_counterexample :
    find_nth "/x/" '/' 3 = -1
    ∧ resolveOwner obj_def conceptDef "Concept" c10rec
        = Except.ok (some (PyVal.str ""), c10rec)
    ∧ resolveRepo conceptDef "Concept" (some (PyVal.str "")) c10rec
        = Except.ok (some (PyVal.str "/x/"),
                     [("id", PyVal.str "C1"), ("concept_class", PyVal.str "X")])
    ∧ String.startsWith "/x/" "sources/" = false :=
  ⟨rfl, rfl, rfl, rfl⟩

/-- C2 amended: a record abandoned mid-way (owner missing, repository
missing, unexpected probe status, or exists-without-update) leaves the whole
results aggregate -- both counters included -- unchanged; nothing marks the
record in the aggregate. -/
theorem C2_abandoned_unrecorded (ctx : Ctx) (st : St) (obj_type : String) (obj : PyRec)
    (st1 : St) (a : Abandon)
    (h : process_object ctx st obj_type obj = (st1, Except.ok (POOutcome.abandoned a))) :
    st1.results = st.results := by
  unfold process_object at h
  split at h
  · simp at h
  · split at h
    · simp at h
    · split at h
      · simp at h
      · simp only [Prod.mk.injEq] at h
        rw [← h.1]
      · split at h
        · simp at h
        · simp at h
        · simp at h

/-- C2 witness: the counterexample record instantiates the amended claim. -/
theorem C2_witness : (process_object ctx2 st0 "Source" c2rec).1.results = st0.results :=
  C2_abandoned_unrecorded ctx2 st0 "Source" c2rec
    (process_object ctx2 st0 "Source" c2rec).1 Abandon.ownerMissing rfl

/-- C3 amended: in a non-test run, when the object already exists the
executor returns after logging: no request is issued, no outcome is
recorded, whatever the update configuration says. -/
theorem C3_update_always_skipped (ctx : Ctx) (results : OclImportResults)
    (reqs : List ReqEvent) (d : ObjDef) (obj_type : String) (r : Resolved)
    (h : ctx.test_mode = false) :
    update_or_create ctx results reqs d obj_type r true
      = (results, reqs, Except.ok ()) := by
  simp [update_or_create, h]

/-- C3 witness: the skipping-update behaviour at the counterexample input. -/
theorem C3_witness :
    ctx3.test_mode = false
    ∧ update_or_create ctx3 (emptyResults 0) [] conceptDef "Concept" c5resolved true
        = (emptyResults 0, [], Except.ok ()) :=
  ⟨rfl, C3_update_always_skipped ctx3 (emptyResults 0) [] conceptDef "Concept"
          c5resolved rfl⟩

/-- C8 amended: a type declaring both has_source and has_collection raises
the configuration error only when a record of that type is processed; the
error escapes process_object (and hence aborts the run), with the state
untouched. -/
theorem C8_config_error_on_processing (ctx : Ctx) (st : St) (obj_type : String)
    (obj : PyRec) (d : ObjDef) (hd : List.lookup obj_type ctx.registry = some d)
    (hs : d.has_source = true) (hc : d.has_collection = true) :
    process_object ctx st obj_type obj
      = (st, Except.error (RunErr.resolveErr ResolveErr.invalidObjectDefinition)) := by
  simp [process_object, hd, resolvePhase, hs, hc]

/-- C8 witness: the malformed Widget entry instantiates the amended claim. -/
theorem C8_witness :
    process_object ctx8 st0 "Widget" [("id", PyVal.str "W1")]
      = (st0, Except.error (RunErr.resolveErr ResolveErr.invalidObjectDefinition)) :=
  C8_config_error_on_processing ctx8 st0 "Widget" [("id", PyVal.str "W1")] badDef
    rfl rfl rfl

/-- C6: a probe that answered true leaves the address cached, so a repeated
probe answers true again from the cache, with no network request; a probe
that answered false caches nothing, so any later probe of the address issues
a real request. -/
theorem C6_probe_cache_idempotent (net : Network) (root : String) (cache : List String)
    (url : String) :
    ((does_object_exist net root cache true url).1 = Except.ok true →
      does_object_exist net root (does_object_exist net root cache true url).2.1 true url
        = (Except.ok true, (does_object_exist net root cache true url).2.1, false))
    ∧ ((does_object_exist net root cache true url).1 = Except.ok false →
        (does_object_exist net root cache true url).2.1 = cache
        ∧ ∀ net2 : Network, (does_object_exist net2 root cache true url).2.2 = true) := by
  by_cases hc : url ∈ cache
  · constructor
    · intro _
      simp [does_object_exist, hc]
    · intro hfalse
      simp [does_object_exist, hc] at hfalse
  · by_cases h2 : net.head (root ++ url) = 200
    · constructor
      · intro _
        simp [does_object_exist, hc, h2]
      · intro hfalse
        simp [does_object_exist, hc, h2] at hfalse
    · by_cases h4 : net.head (root ++ url) = 404
      · constructor
        · intro htrue
          simp [does_object_exist, hc, h2, h4] at htrue
        · intro _
          refine ⟨by simp [does_object_exist, hc, h2, h4], ?_⟩
          intro net2
          simp only [does_object_exist, hc]
          split
          · simp_all
          · split
            · rfl
            · split
              · rfl
              · rfl
      · constructor
        · intro htrue
          simp [does_object_exist, hc, h2, h4] at htrue
        · intro hfalse
          simp [does_object_exist, hc, h2, h4] at hfalse

/-- C6 witness: after a successful probe of a fresh address, the repeat probe
is served entirely from the cache. -/
theorem C6_witness :
    does_object_exist net6 "" ((does_object_exist net6 "" [] true "/orgs/A/").2.1)
        true "/orgs/A/"
      = (Except.ok true, (does_object_exist net6 "" [] true "/orgs/A/").2.1, false) :=
  (C6_probe_cache_idempotent net6 "" [] "/orgs/A/").1 rfl

theorem endsWithSlash_append (a b : String) (h : endsWithSlash b = true) :
    endsWithSlash (a ++ b) = true := by
  have hb : b.data.getLast? = some '/' := by
    simpa [endsWithSlash] using h
  have hne : b.data ≠ [] := by
    intro hnil
    rw [hnil] at hb
    simp at hb
  have habd : (a ++ b).data = a.data ++ b.data := rfl
  have hlast : (a ++ b).data.getLast? = some '/' := by
    rw [habd, List.getLast?_append_of_ne_nil a.data hne, hb]
  show ((a ++ b).data.getLast? == some '/') = true
  rw [hlast]
  rfl

theorem endsWithSlash_lit : endsWithSlash "/" = true := rfl

/-- Every successful address construction produces an object URL ending in
the separator, in each of the five shape branches. -/
theorem buildUrls_slash (d : ObjDef) (i : PyVal) (ow rp : Option PyVal)
    (nu ou : String) (h : buildUrls d i ow rp = Except.ok (nu, ou)) :
    endsWithSlash ou = true := by
  unfold buildUrls at h
  split at h
  · split at h
    · simp at h
    · split at h
      · split at h
        · simp only [Except.ok.injEq, Prod.mk.injEq] at h
          rw [← h.2]
          exact endsWithSlash_append _ _ endsWithSlash_lit
        · simp at h
      · split at h
        · split at h
          · simp only [Except.ok.injEq, Prod.mk.injEq] at h
            rw [← h.2]
            exact endsWithSlash_append _ _ endsWithSlash_lit
          · simp at h
        · simp only [Except.ok.injEq, Prod.mk.injEq] at h
          rw [← h.2]
          exact endsWithSlash_append _ _ endsWithSlash_lit
  · split at h
    · split at h
      · simp at h
      · split at h
        · simp only [Except.ok.injEq, Prod.mk.injEq] at h
          rw [← h.2]
          exact endsWithSlash_append _ _ endsWithSlash_lit
        · simp at h
    · split at h
      · simp only [Except.ok.injEq, Prod.mk.injEq] at h
        rw [← h.2]
        exact endsWithSlash_append _ _ endsWithSlash_lit
      · simp at h

/-- C9: whenever resolution of a record succeeds, the resolved object address
terminates in the separator, whichever construction branch applied. -/
theorem C9_obj_url_separator (reg : List (String × ObjDef)) (d : ObjDef)
    (obj_type : String) (obj : PyRec) (r : Resolved)
    (h : resolvePhase reg d obj_type obj = Except.ok r) :
    endsWithSlash r.obj_url = true := by
  unfold resolvePhase at h
  repeat' split at h
  any_goals exact Except.noConfusion h
  all_goals dsimp only at h
  all_goals split at h
  any_goals exact Except.noConfusion h
  all_goals
    simp only [Except.ok.injEq] at h
    subst h
    rename_i heq
    exact buildUrls_slash _ _ _ _ _ _ heq

/-- C9 witness: the concept scenario record instantiates the claim. -/
theorem C9_witness : endsWithSlash c5resolved.obj_url = true :=
  C9_obj_url_separator obj_def conceptDef "Concept" c5rec c5resolved rfl

theorem allLookup {p : ResKey × ResVal → Bool} :
    ∀ {d : List (ResKey × ResVal)} {k : ResKey} {v : ResVal},
      d.all p = true → dictLookup d k = some v → p (k, v) = true := by
  intro d
  induction d with
  | nil =>
    intro k v _ hl
    simp [dictLookup] at hl
  | cons kv rest ih =>
    intro k v hall hl
    rcases kv with ⟨k0, v0⟩
    rw [List.all_cons, Bool.and_eq_true] at hall
    unfold dictLookup at hl
    by_cases hk : k0 = k
    · rw [if_pos hk] at hl
      cases hl
      subst hk
      exact hall.1
    · rw [if_neg hk] at hl
      exact ih hall.2 hl

theorem dictLookup_dictSet_self (d : List (ResKey × ResVal)) (k : ResKey) (v : ResVal) :
    dictLookup (dictSet d k v) k = some v := by
  induction d with
  | nil => simp [dictSet, dictLookup]
  | cons kv rest ih =>
    rcases kv with ⟨k0, v0⟩
    unfold dictSet
    by_cases hk : k0 = k
    · rw [if_pos hk]
      simp [dictLookup]
    · rw [if_neg hk]
      unfold dictLookup
      rw [if_neg hk]
      exact ih

theorem toKey_ok (x : Option PyVal) (hx : keyable x = true) :
    ∃ k, toKey x = Except.ok k := by
  match x with
  | none => exact ⟨ResKey.knone, rfl⟩
  | some (PyVal.str s) => exact ⟨ResKey.kstr s, rfl⟩
  | some (PyVal.num n) => exact ⟨ResKey.kint n, rfl⟩
  | some (PyVal.dict d) => simp [keyable] at hx

/-- One get-or-initialise step of add on a well-formed dict level: setDefault
succeeds and the subsequent read returns a value of the level's shape. -/
theorem ensureStep (P : ResVal → Bool) (d : List (ResKey × ResVal)) (k : ResKey)
    (dflt : ResVal) (hall : d.all (fun kv => P kv.2) = true) (hd : P dflt = true) :
    ∃ d2 v, setDefault (ResVal.pydict d) k dflt = Except.ok (ResVal.pydict d2)
      ∧ getItem (ResVal.pydict d2) k = Except.ok v ∧ P v = true := by
  cases hl : dictLookup d k with
  | some v =>
    refine ⟨d, v, ?_, ?_, ?_⟩
    · simp [setDefault, hl]
    · simp [getItem, hl]
    · exact allLookup hall hl
  | none =>
    refine ⟨dictSet d k dflt, dflt, ?_, ?_, hd⟩
    · simp [setDefault, hl]
    · simp [getItem, dictLookup_dictSet_self]

/-- OclImportResults.add succeeds on every well-formed aggregate with
hashable owner/repository values, and bumps the processed counter by exactly
one. -/
theorem add_ok (r : OclImportResults) (obj_url action_type obj_type : String)
    (rp : Option PyVal) (m : String) (ow : Option PyVal) (sc : ResKey)
    (hwf : resultsWF r = true) (hrp : keyable rp = true) (how : keyable ow = true) :
    ∃ r2, r.add obj_url action_type obj_type rp m ow sc = Except.ok r2
      ∧ r2.count = r.count + 1 ∧ r2.num_skipped = r.num_skipped
      ∧ r2.total_lines = r.total_lines := by
  obtain ⟨root, hroot⟩ : ∃ root, loggingRoot obj_type rp ow = Except.ok root := by
    unfold loggingRoot
    split
    · exact toKey_ok rp hrp
    · split
      · exact toKey_ok ow how
      · split
        · exact ⟨_, rfl⟩
        · split
          · exact ⟨_, rfl⟩
          · exact ⟨_, rfl⟩
  unfold resultsWF at hwf
  rcases hr0 : r.results with xs | d0
  · rw [hr0] at hwf
    simp [wf0] at hwf
  · rw [hr0] at hwf
    have hall0 : d0.all (fun kv => wf1 kv.2) = true := by simpa [wf0] using hwf
    obtain ⟨e0, v1, hsd0, hgi0, hP1⟩ :=
      ensureStep wf1 d0 root (ResVal.pydict []) hall0 (by rfl)
    rcases v1 with xs1 | d1
    · simp [wf1] at hP1
    · have hall1 : d1.all (fun kv => wf2 kv.2) = true := by simpa [wf1] using hP1
      obtain ⟨e1, v2, hsd1, hgi1, hP2⟩ :=
        ensureStep wf2 d1 (ResKey.kstr action_type) (ResVal.pydict []) hall1 (by rfl)
      rcases v2 with xs2 | d2
      · simp [wf2] at hP2
      · have hall2 : d2.all (fun kv => wf3 kv.2) = true := by simpa [wf2] using hP2
        obtain ⟨e2, v3, hsd2, hgi2, hP3⟩ :=
          ensureStep wf3 d2 sc (ResVal.pylist []) hall2 (by rfl)
        rcases v3 with xs3 | d3
        · refine ⟨{ r with
              results := ResVal.pydict (dictSet e0 root (ResVal.pydict (dictSet e1
                (ResKey.kstr action_type) (ResVal.pydict (dictSet e2 sc
                  (ResVal.pylist (xs3 ++ [m ++ " " ++ obj_url]))))))),
              count := r.count + 1 }, ?_, rfl, rfl, rfl⟩
          unfold OclImportResults.add
          rw [hroot]
          simp only [exceptBindOk]
          rw [hr0, hsd0]
          simp only [exceptBindOk]
          rw [hgi0]
          simp only [exceptBindOk]
          rw [hsd1]
          simp only [exceptBindOk]
          rw [hgi1]
          simp only [exceptBindOk]
          rw [hsd2]
          simp only [exceptBindOk]
          rw [hgi2]
          simp only [exceptBindOk, appendStr, setItem, exceptPure]
        · simp [wf3] at hP3

/-- C7: in every real (non-test) create transmission -- whatever the status
code -- exactly one outcome is recorded in the aggregate, and the executor
then raises exactly for a 4xx/5xx status; concretely, a run whose creates
all answer 500 records one outcome per record, the raised error is caught
and logged by process_object, and the two-record batch runs to the end. -/
theorem C7_transmission_recorded :
    (∀ (ctx : Ctx) (results : OclImportResults) (reqs : List ReqEvent) (d : ObjDef)
       (obj_type : String) (r : Resolved),
      ctx.test_mode = false →
      (d.create_method = "POST" ∨ d.create_method = "PUT") →
      resultsWF results = true → keyable r.rp = true → keyable r.ow = true →
      ∃ results2 reqs2 code,
        update_or_create ctx results reqs d obj_type r false
          = (results2, reqs2,
             if 400 ≤ code && code < 600 then Except.error (UoCErr.http code)
             else Except.ok ())
        ∧ results2.count = results.count + 1)
    ∧ (process ctx7 [("r1", c7lineA), ("r2", c7lineB)]).1 = 2
    ∧ (process ctx7 [("r1", c7lineA), ("r2", c7lineB)]).2.2 = none
    ∧ (process ctx7 [("r1", c7lineA), ("r2", c7lineB)]).2.1.results.count = 2
    ∧ (process_object ctx7 st0 "Concept" (recErase c7lineA "type")).2
        = Except.ok (POOutcome.httpErrorLogged 500) := by
  refine ⟨?_, rfl, rfl, rfl, rfl⟩
  intro ctx results reqs d obj_type r htest hm hwf hrp how
  rcases hm with hm | hm
  · cases hq : r.query_params.isEmpty with
    | true =>
      obtain ⟨r2, hadd, hcnt, _, _⟩ :=
        add_ok results r.obj_url "new" obj_type r.rp "POST" r.ow
          (ResKey.kint ((ctx.net.send "POST" (ctx.api_url_root ++ r.new_obj_url) : Nat) : Int))
          hwf hrp how
      exact ⟨r2, reqs ++ [ReqEvent.send "POST" (ctx.api_url_root ++ r.new_obj_url) r.payload],
        ctx.net.send "POST" (ctx.api_url_root ++ r.new_obj_url),
        by simp [update_or_create, htest, hm, hq, hadd]; split <;> rfl, hcnt⟩
    | false =>
      obtain ⟨r2, hadd, hcnt, _, _⟩ :=
        add_ok results r.obj_url "new" obj_type r.rp "POST" r.ow
          (ResKey.kint ((ctx.net.send "POST" (ctx.api_url_root ++
            (r.new_obj_url ++ "?" ++ urlencodeQP r.query_params)) : Nat) : Int)) hwf hrp how
      exact ⟨r2, reqs ++ [ReqEvent.send "POST" (ctx.api_url_root ++
          (r.new_obj_url ++ "?" ++ urlencodeQP r.query_params)) r.payload],
        ctx.net.send "POST" (ctx.api_url_root ++
          (r.new_obj_url ++ "?" ++ urlencodeQP r.query_params)),
        by simp [update_or_create, htest, hm, hq, hadd]; split <;> rfl, hcnt⟩
  · cases hq : r.query_params.isEmpty with
    | true =>
      obtain ⟨r2, hadd, hcnt, _, _⟩ :=
        add_ok results r.obj_url "new" obj_type r.rp "PUT" r.ow
          (ResKey.kint ((ctx.net.send "PUT" (ctx.api_url_root ++ r.new_obj_url) : Nat) : Int))
          hwf hrp how
      exact ⟨r2, reqs ++ [ReqEvent.send "PUT" (ctx.api_url_root ++ r.new_obj_url) r.payload],
        ctx.net.send "PUT" (ctx.api_url_root ++ r.new_obj_url),
        by simp [update_or_create, htest, hm, hq, hadd]; split <;> rfl, hcnt⟩
    | false =>
      obtain ⟨r2, hadd, hcnt, _, _⟩ :=
        add_ok results r.obj_url "new" obj_type r.rp "PUT" r.ow
          (ResKey.kint ((ctx.net.send "PUT" (ctx.api_url_root ++
            (r.new_obj_url ++ "?" ++ urlencodeQP r.query_params)) : Nat) : Int)) hwf hrp how
      exact ⟨r2, reqs ++ [ReqEvent.send "PUT" (ctx.api_url_root ++
          (r.new_obj_url ++ "?" ++ urlencodeQP r.query_params)) r.payload],
        ctx.net.send "PUT" (ctx.api_url_root ++
          (r.new_obj_url ++ "?" ++ urlencodeQP r.query_params)),
        by simp [update_or_create, htest, hm, hq, hadd]; split <;> rfl, hcnt⟩

theorem charFindIdx_none (c : Char) (l : List Char) (h : l.count c = 0) :
    charFindIdx c l = none := by
  induction l with
  | nil => rfl
  | cons a t ih =>
    by_cases hac : a = c
    · subst hac
      simp [List.count_cons] at h
    · have ht : t.count c = 0 := by
        simp [List.count_cons, hac] at h
        exact h
      unfold charFindIdx
      rw [if_neg hac, ih ht]
      rfl

theorem charFindIdx_some (c : Char) :
    ∀ (l : List Char) (k : Nat), charFindIdx c l = some k →
      l.count c = 1 + (l.drop (k + 1)).count c := by
  intro l
  induction l with
  | nil =>
    intro k h
    simp [charFindIdx] at h
  | cons a t ih =>
    intro k h
    unfold charFindIdx at h
    by_cases hac : a = c
    · rw [if_pos hac] at h
      cases h
      subst hac
      simp only [List.count_cons, List.drop_succ_cons, List.drop_zero, beq_self_eq_true,
        if_true]
      omega
    · rw [if_neg hac] at h
      cases hct : charFindIdx c t with
      | none =>
        rw [hct] at h
        simp at h
      | some k0 =>
        rw [hct] at h
        simp only [Option.map_some'] at h
        cases h
        have ht := ih k0 hct
        have hbeq : (a == c) = false := by
          simp [hac]
        simp [List.count_cons, List.drop_succ_cons, hbeq]
        omega

theorem strFindFrom_cases (h : String) (c : Char) (i : Nat) :
    strFindFrom h c i = -1 ∨
    ∃ k, strFindFrom h c i = ((i + k : Nat) : Int)
      ∧ (h.data.drop i).count c = 1 + (h.data.drop (i + k + 1)).count c := by
  unfold strFindFrom
  cases hf : charFindIdx c (h.data.drop i) with
  | none => exact Or.inl rfl
  | some k =>
    refine Or.inr ⟨k, rfl, ?_⟩
    have hcount := charFindIdx_some c _ k hf
    rw [List.drop_drop] at hcount
    rw [Nat.add_assoc]
    exact hcount

theorem find_nthAux_neg (s : String) (c : Char) (n : Nat) :
    find_nthAux s c (-1) n = -1 := by
  match n with
  | 0 => rfl
  | 1 => rfl
  | Nat.succ (Nat.succ m) =>
    unfold find_nthAux
    rw [if_neg]
    norm_num

/-- When fewer occurrences than requested remain after the current one, the
search loop ends at -1. -/
theorem find_nthAux_short (s : String) (c : Char) :
    ∀ (m : Nat) (j : Nat), (s.data.drop (j + 1)).count c < m →
      find_nthAux s c ((j : Nat) : Int) (m + 1) = -1 := by
  intro m
  induction m with
  | zero =>
    intro j hj
    exact absurd hj (Nat.not_lt_zero _)
  | succ m ih =>
    intro j hj
    show find_nthAux s c ((j : Nat) : Int) (Nat.succ (Nat.succ m)) = -1
    unfold find_nthAux
    rw [if_pos (Int.natCast_nonneg j)]
    rw [Int.toNat_natCast]
    rcases strFindFrom_cases s c (j + 1) with hneg | ⟨k, hpos, hcnt⟩
    · rw [hneg]
      exact find_nthAux_neg s c (Nat.succ m)
    · rw [hpos]
      have hlt : (s.data.drop (j + 1 + k + 1)).count c < m := by omega
      exact ih (j + 1 + k) hlt

/-- OclFlexImporter.find_nth returns -1 when the haystack holds fewer than
three occurrences of the needle. -/
theorem find_nth_three (s : String) (c : Char) (hc : s.data.count c < 3) :
    find_nth s c 3 = -1 := by
  unfold find_nth
  rcases strFindFrom_cases s c 0 with h0 | ⟨k0, h0, hcnt0⟩
  · rw [h0]
    exact find_nthAux_neg s c 3
  · rw [h0]
    rw [List.drop_zero] at hcnt0
    have hlt : (s.data.drop (0 + k0 + 1)).count c < 2 := by omega
    exact find_nthAux_short s c 2 (0 + k0) hlt

/-- C7 witness: the general part instantiated at the failing-create
scenario. -/
theorem C7_witness :
    ∃ results2 reqs2 code,
      update_or_create ctx7 (emptyResults 0) [] conceptDef "Concept" c5resolved false
        = (results2, reqs2,
           if 400 ≤ code && code < 600 then Except.error (UoCErr.http code)
           else Except.ok ())
      ∧ results2.count = (emptyResults 0).count + 1 :=
  C7_transmission_recorded.1 ctx7 (emptyResults 0) [] conceptDef "Concept" c5resolved
    rfl (Or.inl rfl) rfl rfl rfl

/-- C10 amended: for a record of an owner-and-source type with no explicit
owner information and a non-empty source_url holding fewer than three
separators, no invalid-owner error is raised -- the third-separator search
returns -1, the truncation ends at index 0, and the owner address becomes
the empty string; the repository address is then the verbatim source_url
field (the synthesis branch that would incorporate the empty owner address
is not reached). -/
theorem C10_short_source_url (reg : List (String × ObjDef)) (d : ObjDef)
    (obj_type : String) (obj : PyRec) (s : String)
    (hown : d.has_owner = true) (hsrc : d.has_source = true)
    (h1 : recHasKey obj "owner_url" = false)
    (h2 : (recHasKey obj "owner" && recHasKey obj "owner_type") = false)
    (h3 : recLookup obj "source_url" = some (PyVal.str s))
    (h4 : s ≠ "")
    (h5 : s.data.count '/' < 3) :
    find_nth s '/' 3 = -1
    ∧ resolveOwner reg d obj_type obj = Except.ok (some (PyVal.str ""), obj)
    ∧ resolveRepo d obj_type (some (PyVal.str "")) obj
        = Except.ok (some (PyVal.str s),
                     recErase (recErase obj "source_url") "source") := by
  have hfind : find_nth s '/' 3 = -1 := find_nth_three s '/' h5
  have hslice : pySliceTo s (find_nth s '/' 3 + 1) = "" := by
    rw [hfind]
    rfl
  have h3l : List.lookup "source_url" obj = some (PyVal.str s) := h3
  have hkey : recHasKey obj "source_url" = true := by
    unfold recHasKey
    rw [h3l]
    rfl
  refine ⟨hfind, ?_, ?_⟩
  · simp [resolveOwner, hown, h1, h2, hsrc, hkey, h3, optTruthy, PyVal.truthy, h4,
      asStr, hslice]
  · simp [resolveRepo, hsrc, hkey, h3]

/-- C10 witness: the short-source-url record instantiates the amended
claim. -/
theorem C10_witness :
    find_nth "/x/" '/' 3 = -1
    ∧ resolveOwner obj_def conceptDef "Concept" c10rec
        = Except.ok (some (PyVal.str ""), c10rec)
    ∧ resolveRepo conceptDef "Concept" (some (PyVal.str "")) c10rec
        = Except.ok (some (PyVal.str "/x/"),
                     recErase (recErase c10rec "source_url") "source") :=
  C10_short_source_url obj_def conceptDef "Concept" c10rec "/x/" rfl rfl rfl rfl rfl
    (by decide) (by decide)

end Ocl
